import Mathlib

/-!
Shallow embedding of `dicom_numpy/combine_slices.py` (innolitics/dicom-numpy).

Conventions of the embedding:
* Python/numpy floating-point scalars are modelled as exact rationals.
* A numpy ndarray is a shape, a dtype tag, and a total lookup function from
  index lists to values; `np.ndarray.T` reverses the shape and the index order.
* A pydicom dataset is a record; attributes read in the source through
  `getattr(ds, name, dflt)` or `hasattr` become `Option` fields, attributes the
  source reads unconditionally become plain fields.
* The Python builtin `sorted` (a stable sort by a key) is modelled by
  `List.insertionSort` with the corresponding total preorder, which is stable
  and has the same input/output contract.
* `raise`/normal return becomes `Except`; messages passed to warning logging
  calls are collected in the `ok` payload as a list of strings.
-/

/-- A numpy dtype tag: the merge either forces `float32` or keeps the dtype of
the first pixel array. -/
inductive DType
  | float32
  | other (name : String)
deriving DecidableEq

/-- A numpy ndarray: shape, dtype and a total element lookup on index lists
(indices outside the shape return junk values, as uninitialised `np.empty`
storage does in the source). -/
structure NDArray where
  shape : List ℕ
  dtype : DType
  data : List ℕ → ℚ

/-- `np.ndarray.T`: reverses the axes. -/
def NDArray.T (a : NDArray) : NDArray :=
  { shape := a.shape.reverse, dtype := a.dtype, data := fun ix => a.data ix.reverse }

/-- A 3-component vector of scalars (`np.array` of length 3). -/
structure Vec3 where
  x : ℚ
  y : ℚ
  z : ℚ
deriving DecidableEq

def Vec3.dot (a b : Vec3) : ℚ := a.x * b.x + a.y * b.y + a.z * b.z

/-- `np.cross` for 3-vectors. -/
def Vec3.cross (a b : Vec3) : Vec3 :=
  ⟨a.y * b.z - a.z * b.y, a.z * b.x - a.x * b.z, a.x * b.y - a.y * b.x⟩

/-- Scalar multiplication `q * v` of a cosine vector by a spacing. -/
def Vec3.smul (q : ℚ) (v : Vec3) : Vec3 := ⟨q * v.x, q * v.y, q * v.z⟩

def Vec3.add (a b : Vec3) : Vec3 := ⟨a.x + b.x, a.y + b.y, a.z + b.z⟩

/-- Reads a length-3 python list as a vector (`np.array(lst)`). -/
def vec3OfList (l : List ℚ) : Vec3 := ⟨l.getD 0 0, l.getD 1 0, l.getD 2 0⟩

/-- A pydicom dataset, restricted to the attributes `combine_slices.py`
reads. Attributes accessed with `getattr(_, _, None)`, `getattr` with another
default, or `hasattr` are `Option` fields; attributes the source dereferences
unconditionally (`pixel_array`, `ImageOrientationPatient`,
`ImagePositionPatient`, `PixelSpacing`) are plain fields. -/
structure Dataset where
  pixel_array : NDArray
  ImageOrientationPatient : List ℚ
  ImagePositionPatient : List ℚ
  PixelSpacing : List ℚ
  Rows : Option ℕ
  Columns : Option ℕ
  SamplesPerPixel : Option ℕ
  PixelRepresentation : Option ℕ
  BitsAllocated : Option ℕ
  Modality : Option String
  SOPClassUID : Option String
  SeriesInstanceUID : Option String
  RescaleSlope : Option ℚ
  RescaleIntercept : Option ℚ
  InstanceNumber : Option ℤ
  SpacingBetweenSlices : Option ℚ
  MediaStorageSOPClassUID : Option String

instance : Inhabited Dataset :=
  ⟨{ pixel_array := ⟨[], DType.other "", fun _ => 0⟩
     ImageOrientationPatient := []
     ImagePositionPatient := []
     PixelSpacing := []
     Rows := none, Columns := none, SamplesPerPixel := none
     PixelRepresentation := none, BitsAllocated := none
     Modality := none, SOPClassUID := none, SeriesInstanceUID := none
     RescaleSlope := none, RescaleIntercept := none
     InstanceNumber := none, SpacingBetweenSlices := none
     MediaStorageSOPClassUID := none }⟩

/-- Modelled from the spec: the error classes live in the repository module
`dicom_numpy/exceptions.py`, which is not under `src/` (only its import
statements are visible).  The spec error taxonomy distinguishes the general
classified import failure (`DicomImportException`, carrying a message) from the
missing-sequence-number failure (`MissingInstanceNumberException`). -/
inductive DicomError
  | importError (msg : String)
  | missingInstanceNumber
deriving DecidableEq

/-- `math.isclose(a, b, rel_tol=1e-9, abs_tol=abs_tol)` over exact scalars:
`abs(a-b) <= max(rel_tol*max(abs(a), abs(b)), abs_tol)`. -/
def isclose (a b rel_tol abs_tol : ℚ) : Bool :=
  decide (|a - b| ≤ max (rel_tol * max |a| |b|) abs_tol)

/-- `_almost_zero(value, abs_tol)`: `isclose(value, 0.0, abs_tol=abs_tol)`. -/
def _almost_zero (value abs_tol : ℚ) : Bool := isclose value 0 (1 / 1000000000) abs_tol

/-- Embedding of `_almost_one(np.linalg.norm(v), abs_tol)`, taking the squared
norm `s = v . v` instead of the (irrational) norm itself: for every
`abs_tol` between `2e-9` and `1` the source condition
`abs(sqrt s - 1) <= max(1e-9 * max(sqrt s, 1), abs_tol)` is equivalent to
`(1 - abs_tol)^2 <= s <= (1 + abs_tol)^2`, which is proved below as
`isclose_sqrt_one_iff`; both tolerances used by the source (`1e-4`, `1e-8`)
are in that range. -/
def _almost_one_of_sq (s abs_tol : ℚ) : Bool :=
  decide ((1 - abs_tol) ^ 2 ≤ s ∧ s ≤ (1 + abs_tol) ^ 2)

/-- `np.allclose(xs, b, rtol, atol)` with a scalar second argument:
elementwise `abs(x - b) <= atol + rtol * abs(b)`. -/
def np_allclose_scalar (xs : List ℚ) (b rtol atol : ℚ) : Bool :=
  xs.all fun x => decide (|x - b| ≤ atol + rtol * |b|)

/-- `np.allclose(a, b, rtol, atol)` on equal-length vectors: elementwise
`abs(a_i - b_i) <= atol + rtol * abs(b_i)`. -/
def np_allclose_list (a b : List ℚ) (rtol atol : ℚ) : Bool :=
  decide (a.length = b.length) &&
    (a.zip b).all fun p => decide (|p.1 - p.2| ≤ atol + rtol * |p.2|)

/-- `np.diff`: consecutive differences `xs[i+1] - xs[i]`. -/
def np_diff (xs : List ℚ) : List ℚ := List.zipWith (fun x y => y - x) xs xs.tail

/-- `np.median`: middle element of the sorted list, or the mean of the two
middle elements for even length (junk 0 on the empty list, where numpy would
produce NaN; the source only calls it on nonempty lists). -/
def np_median (xs : List ℚ) : ℚ :=
  let s := xs.insertionSort (· ≤ ·)
  let n := s.length
  if n % 2 = 1 then s.getD (n / 2) 0
  else (s.getD (n / 2 - 1) 0 + s.getD (n / 2) 0) / 2

/-- `_is_dicomdir(dataset)`. -/
def _is_dicomdir (dataset : Dataset) : Bool :=
  decide (dataset.MediaStorageSOPClassUID = some "1.2.840.10008.1.3.10")

/-- `_requires_rescaling(dataset)`: `hasattr` on `RescaleSlope` or
`RescaleIntercept`. -/
def _requires_rescaling (dataset : Dataset) : Bool :=
  dataset.RescaleSlope.isSome || dataset.RescaleIntercept.isSome

/-- `_extract_cosines(image_orientation)`: row cosine, column cosine and their
cross product. -/
def _extract_cosines (image_orientation : List ℚ) : Vec3 × Vec3 × Vec3 :=
  let row_cosine := vec3OfList (image_orientation.take 3)
  let column_cosine := vec3OfList (image_orientation.drop 3)
  (row_cosine, column_cosine, Vec3.cross row_cosine column_cosine)

/-- The slice position scalar of one dataset: projection of its
`ImagePositionPatient` onto a slice cosine. -/
def _slice_position_key (slice_cosine : Vec3) (d : Dataset) : ℚ :=
  slice_cosine.dot (vec3OfList d.ImagePositionPatient)

/-- `_slice_positions(sorted_datasets)`: slice cosine from the first dataset,
then the projection of every position onto it. -/
def _slice_positions (sorted_datasets : List Dataset) : List ℚ :=
  let cosines := _extract_cosines (sorted_datasets.headD default).ImageOrientationPatient
  sorted_datasets.map (_slice_position_key cosines.2.2)

/-- `sort_by_slice_position(slice_datasets)`: stable ascending sort by slice
position scalar (the source sorts the `zip(slice_positions, slice_datasets)`
pairs by their first component, which is the same stable sort by key). -/
def sort_by_slice_position (slice_datasets : List Dataset) : List Dataset :=
  let cosines := _extract_cosines (slice_datasets.headD default).ImageOrientationPatient
  slice_datasets.insertionSort
    (fun a b => _slice_position_key cosines.2.2 a ≤ _slice_position_key cosines.2.2 b)

/-- `sort_by_instance_number(slice_datasets)`: raises when any dataset lacks
`InstanceNumber`, otherwise stable sort by descending instance number
(Python `sorted(..., reverse=True)` keeps equal keys in input order, as
`insertionSort` with the flipped relation does). -/
def sort_by_instance_number (slice_datasets : List Dataset) :
    Except DicomError (List Dataset) :=
  let instance_numbers := slice_datasets.map fun d => d.InstanceNumber
  if instance_numbers.any fun n => n.isNone then
    Except.error DicomError.missingInstanceNumber
  else
    Except.ok (slice_datasets.insertionSort
      (fun a b => b.InstanceNumber.getD 0 ≤ a.InstanceNumber.getD 0))

/-- `_merge_slice_pixel_arrays(sorted_datasets, rescale, c_order_axes)`. -/
def _merge_slice_pixel_arrays (sorted_datasets : List Dataset)
    (rescale : Option Bool) (c_order_axes : Bool) : NDArray :=
  let rescaleB := match rescale with
    | none => sorted_datasets.any _requires_rescaling
    | some b => b
  let first_dataset := sorted_datasets.headD default
  let slice_dtype := first_dataset.pixel_array.dtype
  let num_slices := sorted_datasets.length
  let voxels_dtype := if rescaleB then DType.float32 else slice_dtype
  let voxels_shape :=
    if c_order_axes then num_slices :: first_dataset.pixel_array.shape
    else first_dataset.pixel_array.T.shape ++ [num_slices]
  { shape := voxels_shape
    dtype := voxels_dtype
    data := fun ix =>
      let k := if c_order_axes then ix.headD 0 else ix.getLastD 0
      let rest := if c_order_axes then ix.tail else ix.dropLast
      let dataset := sorted_datasets.getD k default
      let pixel_array := if c_order_axes then dataset.pixel_array else dataset.pixel_array.T
      if rescaleB then
        pixel_array.data rest * dataset.RescaleSlope.getD 1 + dataset.RescaleIntercept.getD 0
      else pixel_array.data rest }

/-- The body of the `for property_name in invariant_properties` loop in
`_validate_slices_form_uniform_grid`, for one attribute: every later dataset
must agree with the first on `getattr(_, name, None)`. -/
def _slice_attribute_equal {α : Type} [DecidableEq α] (getter : Dataset → Option α)
    (sorted_datasets : List Dataset) : Bool :=
  let initial_value := getter (sorted_datasets.headD default)
  (sorted_datasets.drop 1).all fun d => decide (getter d = initial_value)

/-- `_slice_ndarray_attribute_almost_equal(sorted_datasets,
"ImageOrientationPatient", abs_tol)`: `np.allclose(value, initial,
atol=abs_tol)` keeps the numpy default `rtol=1e-5`. -/
def _slice_ndarray_attribute_almost_equal_orientation (sorted_datasets : List Dataset)
    (abs_tol : ℚ) : Bool :=
  let initial_value := (sorted_datasets.headD default).ImageOrientationPatient
  (sorted_datasets.drop 1).all fun d =>
    np_allclose_list d.ImageOrientationPatient initial_value (1 / 100000) abs_tol

/-- The `invariant_properties` loop of `_validate_slices_form_uniform_grid`:
raise on the first attribute two slices disagree on. -/
def _invariant_attribute_checks (sorted_datasets : List Dataset) :
    Except DicomError Unit :=
  if !_slice_attribute_equal (fun d => d.Modality) sorted_datasets then
    Except.error (DicomError.importError "All slices must have the same value for Modality")
  else if !_slice_attribute_equal (fun d => d.SOPClassUID) sorted_datasets then
    Except.error (DicomError.importError "All slices must have the same value for SOPClassUID")
  else if !_slice_attribute_equal (fun d => d.SeriesInstanceUID) sorted_datasets then
    Except.error (DicomError.importError "All slices must have the same value for SeriesInstanceUID")
  else if !_slice_attribute_equal (fun d => d.Rows) sorted_datasets then
    Except.error (DicomError.importError "All slices must have the same value for Rows")
  else if !_slice_attribute_equal (fun d => d.Columns) sorted_datasets then
    Except.error (DicomError.importError "All slices must have the same value for Columns")
  else if !_slice_attribute_equal (fun d => d.SamplesPerPixel) sorted_datasets then
    Except.error (DicomError.importError "All slices must have the same value for SamplesPerPixel")
  else if !_slice_attribute_equal (fun d => some d.PixelSpacing) sorted_datasets then
    Except.error (DicomError.importError "All slices must have the same value for PixelSpacing")
  else if !_slice_attribute_equal (fun d => d.PixelRepresentation) sorted_datasets then
    Except.error (DicomError.importError "All slices must have the same value for PixelRepresentation")
  else if !_slice_attribute_equal (fun d => d.BitsAllocated) sorted_datasets then
    Except.error (DicomError.importError "All slices must have the same value for BitsAllocated")
  else Except.ok ()

/-- `_validate_image_orientation(image_orientation)`: hard failures become
`Except.error`, the logged warnings of the `elif` branches are collected in
the `ok` payload. -/
def _validate_image_orientation (image_orientation : List ℚ) :
    Except DicomError (List String) :=
  let cosines := _extract_cosines image_orientation
  let row_cosine := cosines.1
  let column_cosine := cosines.2.1
  if !_almost_zero (row_cosine.dot column_cosine) (1 / 10000) then
    Except.error (DicomError.importError "Non-orthogonal direction cosines")
  else
    let w1 := if !_almost_zero (row_cosine.dot column_cosine) (1 / 100000000) then
      ["Direction cosines are not quite orthogonal"] else []
    if !_almost_one_of_sq (row_cosine.dot row_cosine) (1 / 10000) then
      Except.error (DicomError.importError "The row direction cosine magnitude is not 1")
    else
      let w2 := if !_almost_one_of_sq (row_cosine.dot row_cosine) (1 / 100000000) then
        ["The row direction cosine magnitude is not quite 1"] else []
      if !_almost_one_of_sq (column_cosine.dot column_cosine) (1 / 10000) then
        Except.error (DicomError.importError "The column direction cosine magnitude is not 1")
      else
        let w3 := if !_almost_one_of_sq (column_cosine.dot column_cosine) (1 / 100000000) then
          ["The column direction cosine magnitude is not quite 1"] else []
        Except.ok (w1 ++ w2 ++ w3)

/-- `_check_for_missing_slices(slice_positions)`: on two or more positions,
sort them, take consecutive differences, warn at relative tolerance `1e-5`
and raise at relative tolerance `1e-1`. -/
def _check_for_missing_slices (slice_positions : List ℚ) :
    Except DicomError (List String) :=
  if slice_positions.length > 1 then
    let slice_positions_diffs := np_diff (slice_positions.insertionSort (· ≤ ·))
    let d0 := slice_positions_diffs.headD 0
    let warns := if !np_allclose_scalar slice_positions_diffs d0 (1 / 100000) 0 then
      ["The slice spacing is non-uniform"] else []
    if !np_allclose_scalar slice_positions_diffs d0 (1 / 10) 0 then
      Except.error (DicomError.importError "It appears there are missing slices")
    else Except.ok warns
  else Except.ok []

/-- `_validate_slices_form_uniform_grid(sorted_datasets, enforce_slice_spacing)`. -/
def _validate_slices_form_uniform_grid (sorted_datasets : List Dataset)
    (enforce_slice_spacing : Bool) : Except DicomError (List String) :=
  match _invariant_attribute_checks sorted_datasets with
  | Except.error e => Except.error e
  | Except.ok _ =>
    match _validate_image_orientation
        (sorted_datasets.headD default).ImageOrientationPatient with
    | Except.error e => Except.error e
    | Except.ok w1 =>
      if !_slice_ndarray_attribute_almost_equal_orientation sorted_datasets (1 / 100000) then
        Except.error (DicomError.importError
          "All slices must have the same value for ImageOrientationPatient within tolerance")
      else if enforce_slice_spacing then
        match _check_for_missing_slices (_slice_positions sorted_datasets) with
        | Except.error e => Except.error e
        | Except.ok w2 => Except.ok (w1 ++ w2)
      else Except.ok w1

/-- `_slice_spacing(sorted_datasets)`: median of consecutive slice position
differences when more than one slice, otherwise
`getattr(sorted_datasets[0], "SpacingBetweenSlices", 0)`. -/
def _slice_spacing (sorted_datasets : List Dataset) : ℚ :=
  if sorted_datasets.length > 1 then
    np_median (np_diff (_slice_positions sorted_datasets))
  else (sorted_datasets.headD default).SpacingBetweenSlices.getD 0

abbrev Matrix4 := Matrix (Fin 4) (Fin 4) ℚ

/-- The numpy slice assignment `m[:3, j] = v`. -/
def setCol3 (m : Matrix4) (j : Fin 4) (v : Vec3) : Matrix4 :=
  Matrix.of fun i k =>
    if k = j ∧ (i : ℕ) < 3 then
      (if (i : ℕ) = 0 then v.x else if (i : ℕ) = 1 then v.y else v.z)
    else m i k

/-- `_ijk_to_patient_xyz_transform_matrix(sorted_datasets)`: start from the
identity, then assign the three scaled cosine columns and the position
column. -/
def _ijk_to_patient_xyz_transform_matrix (sorted_datasets : List Dataset) : Matrix4 :=
  let first_dataset := sorted_datasets.headD default
  let cosines := _extract_cosines first_dataset.ImageOrientationPatient
  let row_cosine := cosines.1
  let column_cosine := cosines.2.1
  let slice_cosine := cosines.2.2
  let row_spacing := first_dataset.PixelSpacing.getD 0 0
  let column_spacing := first_dataset.PixelSpacing.getD 1 0
  let slice_spacing := _slice_spacing sorted_datasets
  let transform : Matrix4 := 1
  let transform := setCol3 transform 0 (Vec3.smul column_spacing row_cosine)
  let transform := setCol3 transform 1 (Vec3.smul row_spacing column_cosine)
  let transform := setCol3 transform 2 (Vec3.smul slice_spacing slice_cosine)
  let transform := setCol3 transform 3 (vec3OfList first_dataset.ImagePositionPatient)
  transform

/-- `combine_slices(datasets, rescale, enforce_slice_spacing, sort_by_instance,
skip_sorting, c_order_axes)`. -/
def combine_slices (datasets : List Dataset) (rescale : Option Bool)
    (enforce_slice_spacing : Bool) (sort_by_instance : Bool) (skip_sorting : Bool)
    (c_order_axes : Bool) : Except DicomError (NDArray × Matrix4) :=
  let slice_datasets := datasets.filter fun ds => !_is_dicomdir ds
  if slice_datasets.length = 0 then
    Except.error (DicomError.importError "Must provide at least one image DICOM dataset")
  else
    let sortedE : Except DicomError (List Dataset) :=
      if skip_sorting then Except.ok slice_datasets
      else if sort_by_instance then sort_by_instance_number slice_datasets
      else Except.ok (sort_by_slice_position slice_datasets)
    match sortedE with
    | Except.error e => Except.error e
    | Except.ok sorted_datasets =>
      match _validate_slices_form_uniform_grid sorted_datasets enforce_slice_spacing with
      | Except.error e => Except.error e
      | Except.ok _ =>
        Except.ok (_merge_slice_pixel_arrays sorted_datasets rescale c_order_axes,
          _ijk_to_patient_xyz_transform_matrix sorted_datasets)

/-- Extracts a voxel value from a successful `combine_slices` result. -/
def voxelAt (r : Except DicomError (NDArray × Matrix4)) (ix : List ℕ) : Option ℚ :=
  match r with
  | Except.ok p => some (p.1.data ix)
  | Except.error _ => none

/-! ## Concrete datasets used by counterexamples and witnesses -/

/-- A single slice whose pixel buffer has shape (rows, columns) = (1, 2). -/
def cexShapeSlice : Dataset :=
  { (default : Dataset) with
    pixel_array := ⟨[1, 2], DType.other "uint8", fun _ => 0⟩ }

/-- A DICOMDIR directory record. -/
def dicomdirRecord : Dataset :=
  { (default : Dataset) with
    MediaStorageSOPClassUID := some "1.2.840.10008.1.3.10" }

/-! ## C1 -/

/-- C1 counterexample: a single slice whose pixel buffer has shape
(rows, columns) = (1, 2) merges, in the default slice-minor layout, into an
array of shape [2, 1, 1] — the reverse of the buffer shape followed by the
slice count — not [rows, columns, num_slices] = [1, 2, 1] as the claim
states. -/
theorem merge_shape_slice_minor_cex :
    (_merge_slice_pixel_arrays [cexShapeSlice] none false).shape = [2, 1, 1]
    ∧ [2, 1, 1] ≠ ([1, 2, 1] : List ℕ) := by
  constructor
  · rfl
  · decide

/-- C1 (amended): in the default slice-minor layout the merged shape is the
*reverse* of the first slice's pixel-buffer shape followed by the number of
slices (the source stacks the transposed slices); in slice-major layout
(`c_order_axes=True`) it is the number of slices followed by the
pixel-buffer shape, as the claim states. -/
theorem merge_shape_layouts (sorted_datasets : List Dataset) (rescale : Option Bool) :
    (_merge_slice_pixel_arrays sorted_datasets rescale false).shape
      = (sorted_datasets.headD default).pixel_array.shape.reverse
          ++ [sorted_datasets.length]
    ∧ (_merge_slice_pixel_arrays sorted_datasets rescale true).shape
      = sorted_datasets.length :: (sorted_datasets.headD default).pixel_array.shape := by
  constructor <;> simp [_merge_slice_pixel_arrays, NDArray.T]

/-! ## C10 -/

/-- C10: `combine_slices` filters out DICOMDIR records before ordering,
validation and merging (its result on any input equals its result on the
filtered input), and on a list consisting solely of DICOMDIR records it
raises the same empty-input classified error as on the empty list. -/
theorem combine_slices_dicomdir_only (datasets : List Dataset)
    (rescale : Option Bool) (enf sbi skip c : Bool)
    (hall : ∀ d ∈ datasets, _is_dicomdir d = true) :
    combine_slices datasets rescale enf sbi skip c
        = Except.error (DicomError.importError "Must provide at least one image DICOM dataset")
    ∧ combine_slices [] rescale enf sbi skip c
        = Except.error (DicomError.importError "Must provide at least one image DICOM dataset")
    ∧ ∀ ds : List Dataset, combine_slices ds rescale enf sbi skip c
        = combine_slices (ds.filter fun d => !_is_dicomdir d) rescale enf sbi skip c := by
  have hf : datasets.filter (fun ds => !_is_dicomdir ds) = [] := by
    rw [List.filter_eq_nil_iff]
    intro a ha
    simp [hall a ha]
  refine ⟨?_, ?_, ?_⟩
  · simp only [combine_slices, hf]
    rfl
  · rfl
  · intro ds
    have hff : (ds.filter fun d => !_is_dicomdir d).filter (fun d => !_is_dicomdir d)
        = ds.filter fun d => !_is_dicomdir d := by
      rw [List.filter_filter]
      congr 1
      funext a
      cases h : _is_dicomdir a <;> simp [h]
    simp only [combine_slices, hff]

/-- C10 witness: a one-element list holding only a DICOMDIR record raises the
empty-input error, exactly as the empty list does. -/
theorem combine_slices_dicomdir_only_witness :
    combine_slices [dicomdirRecord] none true false false false
        = Except.error (DicomError.importError "Must provide at least one image DICOM dataset")
    ∧ combine_slices [] none true false false false
        = Except.error (DicomError.importError "Must provide at least one image DICOM dataset")
    ∧ ∀ ds : List Dataset, combine_slices ds none true false false false
        = combine_slices (ds.filter fun d => !_is_dicomdir d) none true false false false :=
  combine_slices_dicomdir_only [dicomdirRecord] none true false false false
    (by
      intro d hd
      rcases List.mem_singleton.mp hd with rfl
      rfl)

/-! ## C5 -/

/-- Closed form of the transform matrix (shared helper): columns are the
cross-paired scaled cosines, the slice column, the first position, and the
identity bottom row. -/
theorem transform_closed_form (sorted_datasets : List Dataset) :
    _ijk_to_patient_xyz_transform_matrix sorted_datasets =
      Matrix.of
        ![![(sorted_datasets.headD default).PixelSpacing.getD 1 0
              * (_extract_cosines (sorted_datasets.headD default).ImageOrientationPatient).1.x,
            (sorted_datasets.headD default).PixelSpacing.getD 0 0
              * (_extract_cosines (sorted_datasets.headD default).ImageOrientationPatient).2.1.x,
            _slice_spacing sorted_datasets
              * (_extract_cosines (sorted_datasets.headD default).ImageOrientationPatient).2.2.x,
            (vec3OfList (sorted_datasets.headD default).ImagePositionPatient).x],
          ![(sorted_datasets.headD default).PixelSpacing.getD 1 0
              * (_extract_cosines (sorted_datasets.headD default).ImageOrientationPatient).1.y,
            (sorted_datasets.headD default).PixelSpacing.getD 0 0
              * (_extract_cosines (sorted_datasets.headD default).ImageOrientationPatient).2.1.y,
            _slice_spacing sorted_datasets
              * (_extract_cosines (sorted_datasets.headD default).ImageOrientationPatient).2.2.y,
            (vec3OfList (sorted_datasets.headD default).ImagePositionPatient).y],
          ![(sorted_datasets.headD default).PixelSpacing.getD 1 0
              * (_extract_cosines (sorted_datasets.headD default).ImageOrientationPatient).1.z,
            (sorted_datasets.headD default).PixelSpacing.getD 0 0
              * (_extract_cosines (sorted_datasets.headD default).ImageOrientationPatient).2.1.z,
            _slice_spacing sorted_datasets
              * (_extract_cosines (sorted_datasets.headD default).ImageOrientationPatient).2.2.z,
            (vec3OfList (sorted_datasets.headD default).ImagePositionPatient).z],
          ![0, 0, 0, 1]] := by
  funext i j
  fin_cases i <;> fin_cases j <;> rfl


/-- C5: the affine builder yields column 0 = row cosine scaled by column
spacing, column 1 = column cosine scaled by row spacing, column 2 = slice
cosine scaled by the slice spacing, column 3 = the first ordered slice's
position, bottom row (0,0,0,1); the slice spacing is the median of the
consecutive slice-position differences over the full ordered list when it has
more than one slice, and otherwise the first slice's explicit spacing hint
with default 0. -/
theorem transform_matrix_construction (sorted_datasets : List Dataset) :
    _ijk_to_patient_xyz_transform_matrix sorted_datasets =
      Matrix.of
        ![![(sorted_datasets.headD default).PixelSpacing.getD 1 0
              * (_extract_cosines (sorted_datasets.headD default).ImageOrientationPatient).1.x,
            (sorted_datasets.headD default).PixelSpacing.getD 0 0
              * (_extract_cosines (sorted_datasets.headD default).ImageOrientationPatient).2.1.x,
            _slice_spacing sorted_datasets
              * (_extract_cosines (sorted_datasets.headD default).ImageOrientationPatient).2.2.x,
            (vec3OfList (sorted_datasets.headD default).ImagePositionPatient).x],
          ![(sorted_datasets.headD default).PixelSpacing.getD 1 0
              * (_extract_cosines (sorted_datasets.headD default).ImageOrientationPatient).1.y,
            (sorted_datasets.headD default).PixelSpacing.getD 0 0
              * (_extract_cosines (sorted_datasets.headD default).ImageOrientationPatient).2.1.y,
            _slice_spacing sorted_datasets
              * (_extract_cosines (sorted_datasets.headD default).ImageOrientationPatient).2.2.y,
            (vec3OfList (sorted_datasets.headD default).ImagePositionPatient).y],
          ![(sorted_datasets.headD default).PixelSpacing.getD 1 0
              * (_extract_cosines (sorted_datasets.headD default).ImageOrientationPatient).1.z,
            (sorted_datasets.headD default).PixelSpacing.getD 0 0
              * (_extract_cosines (sorted_datasets.headD default).ImageOrientationPatient).2.1.z,
            _slice_spacing sorted_datasets
              * (_extract_cosines (sorted_datasets.headD default).ImageOrientationPatient).2.2.z,
            (vec3OfList (sorted_datasets.headD default).ImagePositionPatient).z],
          ![0, 0, 0, 1]]
    ∧ (1 < sorted_datasets.length →
        _slice_spacing sorted_datasets
          = np_median (np_diff (_slice_positions sorted_datasets)))
    ∧ (sorted_datasets.length ≤ 1 →
        _slice_spacing sorted_datasets
          = (sorted_datasets.headD default).SpacingBetweenSlices.getD 0) := by
  refine ⟨transform_closed_form sorted_datasets, ?_, ?_⟩
  · intro h
    simp only [_slice_spacing, if_pos (by omega : sorted_datasets.length > 1)]
  · intro h
    simp only [_slice_spacing, if_neg (by omega : ¬ sorted_datasets.length > 1)]

/-! ## C3 -/

/-- C3: in rescale auto mode (`rescale=None`, default slice-minor layout),
rescaling is applied iff some slice carries a rescale slope or intercept
attribute: in that case the output dtype is float32 and every voxel of slice
k equals the input pixel times the slice's slope (default 1) plus its
intercept (default 0); otherwise the dtype is the first slice's dtype and
voxels are copied unchanged. -/
theorem merge_rescale_auto_mode (sorted_datasets : List Dataset)
    (ij : List ℕ) (k : ℕ) :
    (sorted_datasets.any _requires_rescaling = true →
      (_merge_slice_pixel_arrays sorted_datasets none false).dtype = DType.float32 ∧
      (_merge_slice_pixel_arrays sorted_datasets none false).data (ij ++ [k]) =
        (sorted_datasets.getD k default).pixel_array.data ij.reverse
          * (sorted_datasets.getD k default).RescaleSlope.getD 1
          + (sorted_datasets.getD k default).RescaleIntercept.getD 0)
    ∧ (sorted_datasets.any _requires_rescaling = false →
      (_merge_slice_pixel_arrays sorted_datasets none false).dtype
          = (sorted_datasets.headD default).pixel_array.dtype ∧
      (_merge_slice_pixel_arrays sorted_datasets none false).data (ij ++ [k]) =
        (sorted_datasets.getD k default).pixel_array.data ij.reverse) := by
  constructor <;> intro h <;>
    simp [_merge_slice_pixel_arrays, NDArray.T, h,
      List.getLastD_concat, List.dropLast_concat]

/-! ## C8 -/

/-- Two slices sharing instance number 5, distinguished by position. -/
def dupInstanceA : Dataset :=
  { (default : Dataset) with InstanceNumber := some 5, ImagePositionPatient := [0, 0, 0] }

/-- Second slice with the same instance number 5. -/
def dupInstanceB : Dataset :=
  { (default : Dataset) with InstanceNumber := some 5, ImagePositionPatient := [1, 1, 1] }

/-- C8 counterexample: on two slices sharing instance number 5 the sort
succeeds and returns them in input order, which is not *strictly* descending
in the sequence number. -/
theorem instance_sort_strict_cex :
    sort_by_instance_number [dupInstanceA, dupInstanceB]
        = Except.ok [dupInstanceA, dupInstanceB]
    ∧ ¬ List.Pairwise (fun a b : Dataset =>
        b.InstanceNumber.getD 0 < a.InstanceNumber.getD 0)
        [dupInstanceA, dupInstanceB] := by
  constructor
  · rfl
  · intro h
    have := List.rel_of_pairwise_cons h (List.mem_singleton.mpr rfl)
    simp [dupInstanceA, dupInstanceB] at this

/-- C8 (amended): `sort_by_instance_number` raises the classified
missing-sequence-number error exactly when some slice lacks an instance
number (all-or-nothing, never a partial ordering), and otherwise returns a
permutation of the input sorted by descending (non-strict) instance number;
the order is strictly descending whenever the instance numbers are pairwise
distinct. -/
theorem instance_sort_descending (l : List Dataset) :
    (sort_by_instance_number l = Except.error DicomError.missingInstanceNumber
        ↔ (l.any fun d => d.InstanceNumber.isNone) = true)
    ∧ (∀ r, sort_by_instance_number l = Except.ok r →
        r.Perm l
        ∧ List.Pairwise (fun a b : Dataset =>
            b.InstanceNumber.getD 0 ≤ a.InstanceNumber.getD 0) r
        ∧ (l.Pairwise (fun a b : Dataset =>
              a.InstanceNumber.getD 0 ≠ b.InstanceNumber.getD 0) →
            List.Pairwise (fun a b : Dataset =>
              b.InstanceNumber.getD 0 < a.InstanceNumber.getD 0) r)) := by
  constructor
  · unfold sort_by_instance_number
    by_cases h : (l.any fun d => d.InstanceNumber.isNone) = true
    · have h' : ((l.map fun d => d.InstanceNumber).any fun n => n.isNone) = true := by
        simpa [List.any_map, Function.comp] using h
      simp only [h', if_true, h]
    · have h' : ¬ ((l.map fun d => d.InstanceNumber).any fun n => n.isNone) = true := by
        simpa [List.any_map, Function.comp] using h
      simp [h', h]
  · intro r hr
    unfold sort_by_instance_number at hr
    by_cases h : (l.any fun d => d.InstanceNumber.isNone) = true
    · have h' : ((l.map fun d => d.InstanceNumber).any fun n => n.isNone) = true := by
        simpa [List.any_map, Function.comp] using h
      rw [if_pos h'] at hr
      exact absurd hr (by simp)
    · have h' : ¬ ((l.map fun d => d.InstanceNumber).any fun n => n.isNone) = true := by
        simpa [List.any_map, Function.comp] using h
      rw [if_neg h'] at hr
      have hr' : l.insertionSort
          (fun a b => b.InstanceNumber.getD 0 ≤ a.InstanceNumber.getD 0) = r := by
        exact Except.ok.inj hr
      haveI htot : IsTotal Dataset
          (fun a b : Dataset => b.InstanceNumber.getD 0 ≤ a.InstanceNumber.getD 0) :=
        ⟨fun a b => le_total (b.InstanceNumber.getD 0) (a.InstanceNumber.getD 0)⟩
      haveI htrans : IsTrans Dataset
          (fun a b : Dataset => b.InstanceNumber.getD 0 ≤ a.InstanceNumber.getD 0) :=
        ⟨fun _ _ _ hab hbc => le_trans hbc hab⟩
      have hperm : r.Perm l := hr' ▸ List.perm_insertionSort _ l
      have hsorted : List.Pairwise (fun a b : Dataset =>
          b.InstanceNumber.getD 0 ≤ a.InstanceNumber.getD 0) r :=
        hr' ▸ List.sorted_insertionSort _ l
      refine ⟨hperm, hsorted, fun hdist => ?_⟩
      have hdist' : List.Pairwise (fun a b : Dataset =>
          a.InstanceNumber.getD 0 ≠ b.InstanceNumber.getD 0) r :=
        (hperm.pairwise_iff fun hab => hab.symm).mpr hdist
      exact (hsorted.and hdist').imp fun hab =>
        lt_of_le_of_ne hab.1 (Ne.symm hab.2)

/-! ## C4 -/

/-- C4: when spacing enforcement is enabled and the list has at least two
slices (and the attribute/orientation stage passes, expressed by the
enforcement-off validator succeeding), grid validation raises the classified
missing-slice error exactly when the consecutive differences of the sorted
slice position scalars fail the 1e-1 relative-tolerance `np.allclose` test;
with enforcement disabled the spacing step is skipped and the same list is
accepted. -/
theorem missing_slice_spacing_gate (l : List Dataset) (h2 : 2 ≤ l.length)
    (w : List String)
    (hpre : _validate_slices_form_uniform_grid l false = Except.ok w) :
    (_validate_slices_form_uniform_grid l true
        = Except.error (DicomError.importError "It appears there are missing slices")
      ↔ np_allclose_scalar
          (np_diff ((_slice_positions l).insertionSort (· ≤ ·)))
          ((np_diff ((_slice_positions l).insertionSort (· ≤ ·))).headD 0)
          (1 / 10) 0 = false)
    ∧ _validate_slices_form_uniform_grid l false = Except.ok w := by
  refine ⟨?_, hpre⟩
  cases hc1 : _invariant_attribute_checks l with
  | error e =>
    unfold _validate_slices_form_uniform_grid at hpre
    rw [hc1] at hpre
    simp at hpre
  | ok u =>
    cases hc2 : _validate_image_orientation (l.headD default).ImageOrientationPatient with
    | error e =>
      unfold _validate_slices_form_uniform_grid at hpre
      rw [hc1, hc2] at hpre
      simp at hpre
    | ok w1 =>
      cases hc3 : _slice_ndarray_attribute_almost_equal_orientation l (1 / 100000) with
      | false =>
        unfold _validate_slices_form_uniform_grid at hpre
        rw [hc1, hc2, hc3] at hpre
        simp at hpre
      | true =>
        have hlen : (_slice_positions l).length > 1 := by
          simp only [_slice_positions, List.length_map]
          omega
        cases hb : np_allclose_scalar
            (np_diff ((_slice_positions l).insertionSort (· ≤ ·)))
            ((np_diff ((_slice_positions l).insertionSort (· ≤ ·))).headD 0)
            (1 / 10) 0 with
        | false =>
          have hchk : _check_for_missing_slices (_slice_positions l)
              = Except.error (DicomError.importError "It appears there are missing slices") := by
            unfold _check_for_missing_slices
            rw [if_pos hlen]
            simp only [hb]
            simp
          have hV : _validate_slices_form_uniform_grid l true
              = Except.error (DicomError.importError "It appears there are missing slices") := by
            unfold _validate_slices_form_uniform_grid
            rw [hc1, hc2, hc3, hchk]
            simp
          rw [hV]
          exact ⟨fun _ => rfl, fun _ => rfl⟩
        | true =>
          cases hchk : _check_for_missing_slices (_slice_positions l) with
          | error e =>
            unfold _check_for_missing_slices at hchk
            rw [if_pos hlen] at hchk
            simp only [hb] at hchk
            simp at hchk
          | ok ws =>
          have hV : _validate_slices_form_uniform_grid l true = Except.ok (w1 ++ ws) := by
            unfold _validate_slices_form_uniform_grid
            rw [hc1, hc2, hc3, hchk]
            simp
          rw [hV]
          constructor
          · intro h
            exact absurd h (by simp)
          · intro h
            exact absurd h (by simp)

/-- A plain axial slice at height z: identity orientation, unit pixel
spacing, no optional attributes. -/
def gapSlice (z : ℚ) : Dataset where
  pixel_array := ⟨[], DType.other "", fun _ => 0⟩
  ImageOrientationPatient := [1, 0, 0, 0, 1, 0]
  ImagePositionPatient := [0, 0, z]
  PixelSpacing := [1, 1]
  Rows := none
  Columns := none
  SamplesPerPixel := none
  PixelRepresentation := none
  BitsAllocated := none
  Modality := none
  SOPClassUID := none
  SeriesInstanceUID := none
  RescaleSlope := none
  RescaleIntercept := none
  InstanceNumber := none
  SpacingBetweenSlices := none
  MediaStorageSOPClassUID := none

/-- C4 witness: three slices at heights 0, 1, 3 (an interior slice missing)
pass every non-spacing check with enforcement off, and instantiate the
spacing-gate equivalence. -/
theorem missing_slice_spacing_gate_witness :
    (_validate_slices_form_uniform_grid [gapSlice 0, gapSlice 1, gapSlice 3] true
        = Except.error (DicomError.importError "It appears there are missing slices")
      ↔ np_allclose_scalar
          (np_diff ((_slice_positions [gapSlice 0, gapSlice 1, gapSlice 3]).insertionSort (· ≤ ·)))
          ((np_diff ((_slice_positions [gapSlice 0, gapSlice 1, gapSlice 3]).insertionSort
              (· ≤ ·))).headD 0)
          (1 / 10) 0 = false)
    ∧ _validate_slices_form_uniform_grid [gapSlice 0, gapSlice 1, gapSlice 3] false
        = Except.ok [] :=
  missing_slice_spacing_gate [gapSlice 0, gapSlice 1, gapSlice 3] (by norm_num) []
    (by
      norm_num [_validate_slices_form_uniform_grid, _invariant_attribute_checks,
        _slice_attribute_equal, _validate_image_orientation, _extract_cosines,
        vec3OfList, Vec3.dot, Vec3.cross, _almost_zero, isclose, _almost_one_of_sq,
        _slice_ndarray_attribute_almost_equal_orientation, np_allclose_list,
        gapSlice, max_def])

/-! ## C7: bridges between the squared-norm embedding and the source's
`math.isclose(np.linalg.norm(v), 1.0, abs_tol)` over the reals -/

/-- `math.isclose` over the reals (used only in specifications, to justify
the squared-norm embedding of the norm checks). -/
def realIsclose (a b rel_tol abs_tol : ℝ) : Prop :=
  |a - b| ≤ max (rel_tol * max |a| |b|) abs_tol

theorem Vec3.dot_self_nonneg (v : Vec3) : 0 ≤ v.dot v := by
  unfold Vec3.dot
  nlinarith [sq_nonneg v.x, sq_nonneg v.y, sq_nonneg v.z]

/-- The squared-norm check is the plain absolute comparison of the norm
against 1. -/
theorem almost_one_of_sq_iff (s t : ℚ) (hs : 0 ≤ s) (ht0 : 0 ≤ t) (ht1 : t ≤ 1) :
    _almost_one_of_sq s t = true ↔ |Real.sqrt (s : ℝ) - 1| ≤ (t : ℝ) := by
  unfold _almost_one_of_sq
  rw [decide_eq_true_eq]
  have hsR : (0 : ℝ) ≤ (s : ℝ) := by exact_mod_cast hs
  have ht0R : (0 : ℝ) ≤ (t : ℝ) := by exact_mod_cast ht0
  have ht1R : (t : ℝ) ≤ 1 := by exact_mod_cast ht1
  have hr0 : (0 : ℝ) ≤ Real.sqrt (s : ℝ) := Real.sqrt_nonneg _
  have hrsq : Real.sqrt (s : ℝ) ^ 2 = (s : ℝ) := Real.sq_sqrt hsR
  rw [abs_le]
  constructor
  · rintro ⟨h1, h2⟩
    have h1R : ((1 : ℝ) - t) ^ 2 ≤ (s : ℝ) := by exact_mod_cast h1
    have h2R : (s : ℝ) ≤ ((1 : ℝ) + t) ^ 2 := by exact_mod_cast h2
    constructor
    · nlinarith [hrsq, hr0]
    · nlinarith [hrsq, hr0]
  · rintro ⟨h1, h2⟩
    have h1R : ((1 : ℝ) - t) ^ 2 ≤ (s : ℝ) := by nlinarith [hrsq, hr0]
    have h2R : (s : ℝ) ≤ ((1 : ℝ) + t) ^ 2 := by nlinarith [hrsq, hr0]
    constructor
    · exact_mod_cast h1R
    · exact_mod_cast h2R

/-- Faithfulness of the squared-norm embedding to the full `math.isclose`
call, its default relative tolerance `1e-9` included, for every absolute
tolerance of at least `2e-9` (the source uses `1e-4` and `1e-8`). -/
theorem isclose_sqrt_one_iff (s t : ℚ) (hs : 0 ≤ s)
    (ht : 2 / 1000000000 ≤ t) (ht1 : t ≤ 1) :
    realIsclose (Real.sqrt (s : ℝ)) 1 (1 / 1000000000) (t : ℝ)
      ↔ _almost_one_of_sq s t = true := by
  have ht0 : (0 : ℚ) ≤ t := le_trans (by norm_num) ht
  rw [almost_one_of_sq_iff s t hs ht0 ht1]
  have htR : (2 / 1000000000 : ℝ) ≤ (t : ℝ) := by
    have := (Rat.cast_le (K := ℝ)).mpr ht
    push_cast at this
    linarith
  have hr0 : (0 : ℝ) ≤ Real.sqrt (s : ℝ) := Real.sqrt_nonneg _
  unfold realIsclose
  constructor
  · intro h
    rcases le_max_iff.mp h with h' | h'
    · rw [abs_one, abs_of_nonneg hr0] at h'
      rcases le_total (Real.sqrt (s : ℝ)) 1 with hle | hge
      · have : max (Real.sqrt (s : ℝ)) 1 = 1 := max_eq_right hle
        rw [this] at h'
        calc |Real.sqrt (s : ℝ) - 1| ≤ 1 / 1000000000 * 1 := h'
          _ ≤ (t : ℝ) := by nlinarith
      · have : max (Real.sqrt (s : ℝ)) 1 = Real.sqrt (s : ℝ) := max_eq_left hge
        rw [this] at h'
        have habs : |Real.sqrt (s : ℝ) - 1| = Real.sqrt (s : ℝ) - 1 :=
          abs_of_nonneg (by linarith)
        rw [habs] at h' ⊢
        nlinarith
    · exact h'
  · intro h
    exact le_trans h (le_max_right _ _)

/-- `_almost_zero` is the plain absolute comparison against the tolerance
(the relative term of `math.isclose` never fires against 0). -/
theorem almost_zero_iff (v t : ℚ) (ht : 0 ≤ t) :
    _almost_zero v t = true ↔ |v| ≤ t := by
  unfold _almost_zero isclose
  rw [decide_eq_true_eq, sub_zero, abs_zero]
  rw [max_comm |v| 0, max_eq_right (abs_nonneg v)]
  constructor
  · intro h
    rcases le_max_iff.mp h with h' | h'
    · have : |v| = 0 := by nlinarith [abs_nonneg v]
      rw [this]
      exact ht
    · exact h'
  · intro h
    exact le_trans h (le_max_right _ _)

theorem rat_abs_le_iff_real (q t : ℚ) : |q| ≤ t ↔ |(q : ℝ)| ≤ (t : ℝ) := by
  rw [← Rat.cast_abs]
  exact (Rat.cast_le (K := ℝ)).symm

/-! ## C7 main theorem -/

/-- C7: orientation validation raises a hard classified error exactly when
|row . column| exceeds 1e-4 or either cosine magnitude differs from 1 by more
than 1e-4; it returns normally with a nonempty warning list exactly when no
quantity breaks the 1e-4 bound but at least one exceeds 1e-8. -/
theorem orientation_validation_thresholds (image_orientation : List ℚ) :
    ((∃ e, _validate_image_orientation image_orientation = Except.error e)
      ↔ ((1 / 10000 : ℝ) < |((((_extract_cosines image_orientation).1.dot (_extract_cosines image_orientation).2.1) : ℚ) : ℝ)| ∨ (1 / 10000 : ℝ) < |Real.sqrt ((((_extract_cosines image_orientation).1.dot (_extract_cosines image_orientation).1) : ℚ) : ℝ) - 1| ∨ (1 / 10000 : ℝ) < |Real.sqrt ((((_extract_cosines image_orientation).2.1.dot (_extract_cosines image_orientation).2.1) : ℚ) : ℝ) - 1|))
    ∧ ((∃ w, _validate_image_orientation image_orientation = Except.ok w ∧ w ≠ [])
      ↔ (¬ ((1 / 10000 : ℝ) < |((((_extract_cosines image_orientation).1.dot (_extract_cosines image_orientation).2.1) : ℚ) : ℝ)| ∨ (1 / 10000 : ℝ) < |Real.sqrt ((((_extract_cosines image_orientation).1.dot (_extract_cosines image_orientation).1) : ℚ) : ℝ) - 1| ∨ (1 / 10000 : ℝ) < |Real.sqrt ((((_extract_cosines image_orientation).2.1.dot (_extract_cosines image_orientation).2.1) : ℚ) : ℝ) - 1|) ∧ ((1 / 100000000 : ℝ) < |((((_extract_cosines image_orientation).1.dot (_extract_cosines image_orientation).2.1) : ℚ) : ℝ)| ∨ (1 / 100000000 : ℝ) < |Real.sqrt ((((_extract_cosines image_orientation).1.dot (_extract_cosines image_orientation).1) : ℚ) : ℝ) - 1| ∨ (1 / 100000000 : ℝ) < |Real.sqrt ((((_extract_cosines image_orientation).2.1.dot (_extract_cosines image_orientation).2.1) : ℚ) : ℝ) - 1|))) := by
  have hs1 : (0 : ℚ) ≤ ((_extract_cosines image_orientation).1.dot (_extract_cosines image_orientation).1) := Vec3.dot_self_nonneg _
  have hs2 : (0 : ℚ) ≤ ((_extract_cosines image_orientation).2.1.dot (_extract_cosines image_orientation).2.1) := Vec3.dot_self_nonneg _
  have hcast : ((1 / 10000 : ℚ) : ℝ) = (1 / 10000 : ℝ) := by norm_num
  have hcast8 : ((1 / 100000000 : ℚ) : ℝ) = (1 / 100000000 : ℝ) := by norm_num
  have B1 : _almost_zero ((_extract_cosines image_orientation).1.dot (_extract_cosines image_orientation).2.1) (1 / 10000) = true ↔ |((((_extract_cosines image_orientation).1.dot (_extract_cosines image_orientation).2.1) : ℚ) : ℝ)| ≤ (1 / 10000 : ℝ) := by
    rw [almost_zero_iff _ _ (by norm_num), rat_abs_le_iff_real, hcast]
  have B1w : _almost_zero ((_extract_cosines image_orientation).1.dot (_extract_cosines image_orientation).2.1) (1 / 100000000) = true ↔ |((((_extract_cosines image_orientation).1.dot (_extract_cosines image_orientation).2.1) : ℚ) : ℝ)| ≤ (1 / 100000000 : ℝ) := by
    rw [almost_zero_iff _ _ (by norm_num), rat_abs_le_iff_real, hcast8]
  have B2 : _almost_one_of_sq ((_extract_cosines image_orientation).1.dot (_extract_cosines image_orientation).1) (1 / 10000) = true ↔ |Real.sqrt ((((_extract_cosines image_orientation).1.dot (_extract_cosines image_orientation).1) : ℚ) : ℝ) - 1| ≤ (1 / 10000 : ℝ) := by
    rw [almost_one_of_sq_iff _ _ hs1 (by norm_num) (by norm_num), hcast]
  have B2w : _almost_one_of_sq ((_extract_cosines image_orientation).1.dot (_extract_cosines image_orientation).1) (1 / 100000000) = true ↔ |Real.sqrt ((((_extract_cosines image_orientation).1.dot (_extract_cosines image_orientation).1) : ℚ) : ℝ) - 1| ≤ (1 / 100000000 : ℝ) := by
    rw [almost_one_of_sq_iff _ _ hs1 (by norm_num) (by norm_num), hcast8]
  have B3 : _almost_one_of_sq ((_extract_cosines image_orientation).2.1.dot (_extract_cosines image_orientation).2.1) (1 / 10000) = true ↔ |Real.sqrt ((((_extract_cosines image_orientation).2.1.dot (_extract_cosines image_orientation).2.1) : ℚ) : ℝ) - 1| ≤ (1 / 10000 : ℝ) := by
    rw [almost_one_of_sq_iff _ _ hs2 (by norm_num) (by norm_num), hcast]
  have B3w : _almost_one_of_sq ((_extract_cosines image_orientation).2.1.dot (_extract_cosines image_orientation).2.1) (1 / 100000000) = true ↔ |Real.sqrt ((((_extract_cosines image_orientation).2.1.dot (_extract_cosines image_orientation).2.1) : ℚ) : ℝ) - 1| ≤ (1 / 100000000 : ℝ) := by
    rw [almost_one_of_sq_iff _ _ hs2 (by norm_num) (by norm_num), hcast8]
  cases hb1 : _almost_zero ((_extract_cosines image_orientation).1.dot (_extract_cosines image_orientation).2.1) (1 / 10000) with
  | false =>
    have hlt : (1 / 10000 : ℝ) < |((((_extract_cosines image_orientation).1.dot (_extract_cosines image_orientation).2.1) : ℚ) : ℝ)| :=
      not_le.mp fun hle => Bool.noConfusion (hb1 ▸ B1.mpr hle)
    have hV : _validate_image_orientation image_orientation
        = Except.error (DicomError.importError "Non-orthogonal direction cosines") := by
      unfold _validate_image_orientation
      simp only [hb1]
      simp
    constructor
    · exact iff_of_true ⟨_, hV⟩ (Or.inl hlt)
    · refine iff_of_false ?_ ?_
      · rintro ⟨w, hw, -⟩
        rw [hV] at hw
        exact Except.noConfusion hw
      · rintro ⟨hno, -⟩
        exact hno (Or.inl hlt)
  | true =>
    have hled : |((((_extract_cosines image_orientation).1.dot (_extract_cosines image_orientation).2.1) : ℚ) : ℝ)| ≤ (1 / 10000 : ℝ) := B1.mp hb1
    cases hb2 : _almost_one_of_sq ((_extract_cosines image_orientation).1.dot (_extract_cosines image_orientation).1) (1 / 10000) with
    | false =>
      have hlt : (1 / 10000 : ℝ) < |Real.sqrt ((((_extract_cosines image_orientation).1.dot (_extract_cosines image_orientation).1) : ℚ) : ℝ) - 1| :=
        not_le.mp fun hle => Bool.noConfusion (hb2 ▸ B2.mpr hle)
      have hV : _validate_image_orientation image_orientation
          = Except.error (DicomError.importError "The row direction cosine magnitude is not 1") := by
        unfold _validate_image_orientation
        simp only [hb1, hb2]
        simp
      constructor
      · exact iff_of_true ⟨_, hV⟩ (Or.inr (Or.inl hlt))
      · refine iff_of_false ?_ ?_
        · rintro ⟨w, hw, -⟩
          rw [hV] at hw
          exact Except.noConfusion hw
        · rintro ⟨hno, -⟩
          exact hno (Or.inr (Or.inl hlt))
    | true =>
      have hles1 : |Real.sqrt ((((_extract_cosines image_orientation).1.dot (_extract_cosines image_orientation).1) : ℚ) : ℝ) - 1| ≤ (1 / 10000 : ℝ) := B2.mp hb2
      cases hb3 : _almost_one_of_sq ((_extract_cosines image_orientation).2.1.dot (_extract_cosines image_orientation).2.1) (1 / 10000) with
      | false =>
        have hlt : (1 / 10000 : ℝ) < |Real.sqrt ((((_extract_cosines image_orientation).2.1.dot (_extract_cosines image_orientation).2.1) : ℚ) : ℝ) - 1| :=
          not_le.mp fun hle => Bool.noConfusion (hb3 ▸ B3.mpr hle)
        have hV : _validate_image_orientation image_orientation
            = Except.error (DicomError.importError "The column direction cosine magnitude is not 1") := by
          unfold _validate_image_orientation
          simp only [hb1, hb2, hb3]
          simp
        constructor
        · exact iff_of_true ⟨_, hV⟩ (Or.inr (Or.inr hlt))
        · refine iff_of_false ?_ ?_
          · rintro ⟨w, hw, -⟩
            rw [hV] at hw
            exact Except.noConfusion hw
          · rintro ⟨hno, -⟩
            exact hno (Or.inr (Or.inr hlt))
      | true =>
        have hles2 : |Real.sqrt ((((_extract_cosines image_orientation).2.1.dot (_extract_cosines image_orientation).2.1) : ℚ) : ℝ) - 1| ≤ (1 / 10000 : ℝ) := B3.mp hb3
        have hnohard : ¬ ((1 / 10000 : ℝ) < |((((_extract_cosines image_orientation).1.dot (_extract_cosines image_orientation).2.1) : ℚ) : ℝ)| ∨ (1 / 10000 : ℝ) < |Real.sqrt ((((_extract_cosines image_orientation).1.dot (_extract_cosines image_orientation).1) : ℚ) : ℝ) - 1| ∨ (1 / 10000 : ℝ) < |Real.sqrt ((((_extract_cosines image_orientation).2.1.dot (_extract_cosines image_orientation).2.1) : ℚ) : ℝ) - 1|) := by
          push_neg
          exact ⟨hled, hles1, hles2⟩
        have hV : _validate_image_orientation image_orientation
            = Except.ok
              ((if !_almost_zero ((_extract_cosines image_orientation).1.dot (_extract_cosines image_orientation).2.1) (1 / 100000000) then
                  ["Direction cosines are not quite orthogonal"] else [])
                ++ (if !_almost_one_of_sq ((_extract_cosines image_orientation).1.dot (_extract_cosines image_orientation).1) (1 / 100000000) then
                  ["The row direction cosine magnitude is not quite 1"] else [])
                ++ (if !_almost_one_of_sq ((_extract_cosines image_orientation).2.1.dot (_extract_cosines image_orientation).2.1) (1 / 100000000) then
                  ["The column direction cosine magnitude is not quite 1"] else [])) := by
          unfold _validate_image_orientation
          simp only [hb1, hb2, hb3]
          simp
        constructor
        · refine iff_of_false ?_ ?_
          · rintro ⟨e, he⟩
            rw [hV] at he
            exact Except.noConfusion he
          · intro h
            exact hnohard h
        · rw [hV]
          constructor
          · rintro ⟨w, hw, hne⟩
            have hw' := Except.ok.inj hw
            refine ⟨hnohard, ?_⟩
            by_contra hno
            push_neg at hno
            obtain ⟨h1, h2, h3⟩ := hno
            have e1 : _almost_zero ((_extract_cosines image_orientation).1.dot (_extract_cosines image_orientation).2.1) (1 / 100000000) = true := B1w.mpr h1
            have e2 : _almost_one_of_sq ((_extract_cosines image_orientation).1.dot (_extract_cosines image_orientation).1) (1 / 100000000) = true := B2w.mpr h2
            have e3 : _almost_one_of_sq ((_extract_cosines image_orientation).2.1.dot (_extract_cosines image_orientation).2.1) (1 / 100000000) = true := B3w.mpr h3
            rw [e1, e2, e3] at hw'
            simp at hw'
            exact hne (by rw [← hw'])
          · rintro ⟨-, hsoft⟩
            refine ⟨_, rfl, ?_⟩
            rcases hsoft with h | h | h
            · have e1 : _almost_zero ((_extract_cosines image_orientation).1.dot (_extract_cosines image_orientation).2.1) (1 / 100000000) = false := by
                cases he : _almost_zero ((_extract_cosines image_orientation).1.dot (_extract_cosines image_orientation).2.1) (1 / 100000000) with
                | false => rfl
                | true => exact absurd (B1w.mp he) (not_le.mpr h)
              rw [e1]
              simp
            · have e2 : _almost_one_of_sq ((_extract_cosines image_orientation).1.dot (_extract_cosines image_orientation).1) (1 / 100000000) = false := by
                cases he : _almost_one_of_sq ((_extract_cosines image_orientation).1.dot (_extract_cosines image_orientation).1) (1 / 100000000) with
                | false => rfl
                | true => exact absurd (B2w.mp he) (not_le.mpr h)
              rw [e2]
              simp
            · have e3 : _almost_one_of_sq ((_extract_cosines image_orientation).2.1.dot (_extract_cosines image_orientation).2.1) (1 / 100000000) = false := by
                cases he : _almost_one_of_sq ((_extract_cosines image_orientation).2.1.dot (_extract_cosines image_orientation).2.1) (1 / 100000000) with
                | false => rfl
                | true => exact absurd (B3w.mp he) (not_le.mpr h)
              rw [e3]
              simp

/-! ## C2 -/

/-- A 1x1 slice at height z whose single pixel holds v. -/
def pixSlice (z v : ℚ) : Dataset where
  pixel_array := ⟨[1, 1], DType.other "uint8", fun _ => v⟩
  ImageOrientationPatient := [1, 0, 0, 0, 1, 0]
  ImagePositionPatient := [0, 0, z]
  PixelSpacing := [1, 1]
  Rows := none
  Columns := none
  SamplesPerPixel := none
  PixelRepresentation := none
  BitsAllocated := none
  Modality := none
  SOPClassUID := none
  SeriesInstanceUID := none
  RescaleSlope := none
  RescaleIntercept := none
  InstanceNumber := none
  SpacingBetweenSlices := none
  MediaStorageSOPClassUID := none

/-- C2 counterexample: two slices at distinct heights, fed in the two
opposite input orders, produce *identical* `combine_slices` outputs even
though the permutation applied internally differs (identity vs swap) — so no
component of the returned value can be the ordering lookup the claim
describes; the inputs themselves differ. -/
theorem combine_slices_no_ordering_lookup_cex :
    combine_slices [pixSlice 0 0, pixSlice 1 1] none true false false false
      = combine_slices [pixSlice 1 1, pixSlice 0 0] none true false false false
    ∧ [pixSlice 0 0, pixSlice 1 1] ≠ [pixSlice 1 1, pixSlice 0 0] := by
  constructor
  · have hfAB : [pixSlice 0 0, pixSlice 1 1].filter (fun ds => !_is_dicomdir ds)
        = [pixSlice 0 0, pixSlice 1 1] := by
      simp [_is_dicomdir, pixSlice]
    have hfBA : [pixSlice 1 1, pixSlice 0 0].filter (fun ds => !_is_dicomdir ds)
        = [pixSlice 1 1, pixSlice 0 0] := by
      simp [_is_dicomdir, pixSlice]
    have hsAB : sort_by_slice_position [pixSlice 0 0, pixSlice 1 1]
        = [pixSlice 0 0, pixSlice 1 1] := by
      unfold sort_by_slice_position
      norm_num [List.insertionSort, List.orderedInsert, _slice_position_key,
        _extract_cosines, vec3OfList, Vec3.dot, Vec3.cross, pixSlice]
    have hsBA : sort_by_slice_position [pixSlice 1 1, pixSlice 0 0]
        = [pixSlice 0 0, pixSlice 1 1] := by
      unfold sort_by_slice_position
      norm_num [List.insertionSort, List.orderedInsert, _slice_position_key,
        _extract_cosines, vec3OfList, Vec3.dot, Vec3.cross, pixSlice]
    simp only [combine_slices, hfAB, hfBA, hsAB, hsBA]
    simp
  · intro h
    have hhead : pixSlice 0 0 = pixSlice 1 1 := by injection h
    have := congrArg Dataset.ImagePositionPatient hhead
    simp [pixSlice] at this

/-- C2 (amended): a successful `combine_slices` call returns exactly the
two-component pair of the merged voxel array and the affine transform of the
internally sorted (default: by slice position) filtered list — no ordering
lookup is part of the return value; a caller re-derives the permutation by
applying the public sorting function itself. -/
theorem combine_slices_returns_pair (datasets : List Dataset)
    (rescale : Option Bool) (enf c : Bool) (out : NDArray × Matrix4)
    (h : combine_slices datasets rescale enf false false c = Except.ok out) :
    out = (_merge_slice_pixel_arrays
        (sort_by_slice_position (datasets.filter fun ds => !_is_dicomdir ds)) rescale c,
      _ijk_to_patient_xyz_transform_matrix
        (sort_by_slice_position (datasets.filter fun ds => !_is_dicomdir ds))) := by
  unfold combine_slices at h
  by_cases hlen : (datasets.filter fun ds => !_is_dicomdir ds).length = 0
  · rw [if_pos hlen] at h
    exact absurd h (by simp)
  · rw [if_neg hlen] at h
    simp only [Bool.false_eq_true, if_false] at h
    cases hval : _validate_slices_form_uniform_grid
        (sort_by_slice_position (datasets.filter fun ds => !_is_dicomdir ds)) enf with
    | error e =>
      rw [hval] at h
      exact absurd h (by simp)
    | ok w =>
      rw [hval] at h
      exact (Except.ok.inj h).symm

/-- C2 witness: on two concrete slices the successful call returns exactly
the merged-voxels/affine pair of the (here explicitly computed) sorted list. -/
theorem combine_slices_returns_pair_witness :
    (_merge_slice_pixel_arrays [pixSlice 0 0, pixSlice 1 1] none false,
      _ijk_to_patient_xyz_transform_matrix [pixSlice 0 0, pixSlice 1 1])
    = (_merge_slice_pixel_arrays
        (sort_by_slice_position
          ([pixSlice 0 0, pixSlice 1 1].filter fun ds => !_is_dicomdir ds)) none false,
      _ijk_to_patient_xyz_transform_matrix
        (sort_by_slice_position
          ([pixSlice 0 0, pixSlice 1 1].filter fun ds => !_is_dicomdir ds))) :=
  combine_slices_returns_pair [pixSlice 0 0, pixSlice 1 1] none true false
    (_merge_slice_pixel_arrays [pixSlice 0 0, pixSlice 1 1] none false,
      _ijk_to_patient_xyz_transform_matrix [pixSlice 0 0, pixSlice 1 1])
    (by
      have hf : [pixSlice 0 0, pixSlice 1 1].filter (fun ds => !_is_dicomdir ds)
          = [pixSlice 0 0, pixSlice 1 1] := by
        simp [_is_dicomdir, pixSlice]
      have hs : sort_by_slice_position [pixSlice 0 0, pixSlice 1 1]
          = [pixSlice 0 0, pixSlice 1 1] := by
        unfold sort_by_slice_position
        norm_num [List.insertionSort, List.orderedInsert, _slice_position_key,
          _extract_cosines, vec3OfList, Vec3.dot, Vec3.cross, pixSlice]
      have hval : _validate_slices_form_uniform_grid [pixSlice 0 0, pixSlice 1 1] true
          = Except.ok [] := by
        norm_num [_validate_slices_form_uniform_grid, _invariant_attribute_checks,
          _slice_attribute_equal, _validate_image_orientation, _extract_cosines,
          vec3OfList, Vec3.dot, Vec3.cross, _almost_zero, isclose, _almost_one_of_sq,
          _slice_ndarray_attribute_almost_equal_orientation, np_allclose_list,
          _check_for_missing_slices, _slice_positions, _slice_position_key,
          np_allclose_scalar, np_diff, List.insertionSort, List.orderedInsert,
          List.zipWith, pixSlice, max_def]
      simp only [combine_slices, hf, hs]
      simp
      rw [hval])

/-! ## C9 -/

/-- C9 counterexample: two slices sharing one slice-position scalar but with
different pixel values are validly spaced (the spacing check passes), yet the
two input orders give different merged volumes: the stable spatial sort keeps
ties in input order. -/
theorem spatial_order_independence_cex :
    ([pixSlice 0 1, pixSlice 0 0] : List Dataset).Perm [pixSlice 0 0, pixSlice 0 1]
    ∧ voxelAt (combine_slices [pixSlice 0 0, pixSlice 0 1] none true false false false)
        [0, 0, 0] = some 0
    ∧ voxelAt (combine_slices [pixSlice 0 1, pixSlice 0 0] none true false false false)
        [0, 0, 0] = some 1
    ∧ combine_slices [pixSlice 0 0, pixSlice 0 1] none true false false false
        ≠ combine_slices [pixSlice 0 1, pixSlice 0 0] none true false false false := by
  have hf1 : [pixSlice 0 0, pixSlice 0 1].filter (fun ds => !_is_dicomdir ds)
      = [pixSlice 0 0, pixSlice 0 1] := by
    simp [_is_dicomdir, pixSlice]
  have hf2 : [pixSlice 0 1, pixSlice 0 0].filter (fun ds => !_is_dicomdir ds)
      = [pixSlice 0 1, pixSlice 0 0] := by
    simp [_is_dicomdir, pixSlice]
  have hs1 : sort_by_slice_position [pixSlice 0 0, pixSlice 0 1]
      = [pixSlice 0 0, pixSlice 0 1] := by
    unfold sort_by_slice_position
    norm_num [List.insertionSort, List.orderedInsert, _slice_position_key,
      _extract_cosines, vec3OfList, Vec3.dot, Vec3.cross, pixSlice]
  have hs2 : sort_by_slice_position [pixSlice 0 1, pixSlice 0 0]
      = [pixSlice 0 1, pixSlice 0 0] := by
    unfold sort_by_slice_position
    norm_num [List.insertionSort, List.orderedInsert, _slice_position_key,
      _extract_cosines, vec3OfList, Vec3.dot, Vec3.cross, pixSlice]
  have hval1 : _validate_slices_form_uniform_grid [pixSlice 0 0, pixSlice 0 1] true
      = Except.ok [] := by
    norm_num [_validate_slices_form_uniform_grid, _invariant_attribute_checks,
      _slice_attribute_equal, _validate_image_orientation, _extract_cosines,
      vec3OfList, Vec3.dot, Vec3.cross, _almost_zero, isclose, _almost_one_of_sq,
      _slice_ndarray_attribute_almost_equal_orientation, np_allclose_list,
      _check_for_missing_slices, _slice_positions, _slice_position_key,
      np_allclose_scalar, np_diff, List.insertionSort, List.orderedInsert,
      List.zipWith, pixSlice, max_def]
  have hval2 : _validate_slices_form_uniform_grid [pixSlice 0 1, pixSlice 0 0] true
      = Except.ok [] := by
    norm_num [_validate_slices_form_uniform_grid, _invariant_attribute_checks,
      _slice_attribute_equal, _validate_image_orientation, _extract_cosines,
      vec3OfList, Vec3.dot, Vec3.cross, _almost_zero, isclose, _almost_one_of_sq,
      _slice_ndarray_attribute_almost_equal_orientation, np_allclose_list,
      _check_for_missing_slices, _slice_positions, _slice_position_key,
      np_allclose_scalar, np_diff, List.insertionSort, List.orderedInsert,
      List.zipWith, pixSlice, max_def]
  have hc1 : combine_slices [pixSlice 0 0, pixSlice 0 1] none true false false false
      = Except.ok (_merge_slice_pixel_arrays [pixSlice 0 0, pixSlice 0 1] none false,
          _ijk_to_patient_xyz_transform_matrix [pixSlice 0 0, pixSlice 0 1]) := by
    simp only [combine_slices, hf1, hs1]
    simp
    rw [hval1]
  have hc2 : combine_slices [pixSlice 0 1, pixSlice 0 0] none true false false false
      = Except.ok (_merge_slice_pixel_arrays [pixSlice 0 1, pixSlice 0 0] none false,
          _ijk_to_patient_xyz_transform_matrix [pixSlice 0 1, pixSlice 0 0]) := by
    simp only [combine_slices, hf2, hs2]
    simp
    rw [hval2]
  have hv1 : voxelAt (combine_slices [pixSlice 0 0, pixSlice 0 1] none true false false false)
      [0, 0, 0] = some 0 := by
    rw [hc1]
    simp [voxelAt, _merge_slice_pixel_arrays, _requires_rescaling, NDArray.T, pixSlice]
  have hv2 : voxelAt (combine_slices [pixSlice 0 1, pixSlice 0 0] none true false false false)
      [0, 0, 0] = some 1 := by
    rw [hc2]
    simp [voxelAt, _merge_slice_pixel_arrays, _requires_rescaling, NDArray.T, pixSlice]
  refine ⟨List.Perm.swap _ _ _, hv1, hv2, ?_⟩
  intro h
  rw [h, hv2] at hv1
  simp at hv1

/-- A stable sort by a key is determined by the multiset of elements once the
keys are pairwise distinct. -/
theorem insertionSort_eq_of_perm_of_distinct {α : Type} (key : α → ℚ) (xs ys : List α)
    (hperm : xs.Perm ys)
    (hdist : ys.Pairwise (fun a b => key a ≠ key b)) :
    xs.insertionSort (fun a b => key a ≤ key b)
      = ys.insertionSort (fun a b => key a ≤ key b) := by
  haveI : IsTotal α (fun a b => key a ≤ key b) := ⟨fun a b => le_total _ _⟩
  haveI : IsTrans α (fun a b => key a ≤ key b) := ⟨fun _ _ _ h1 h2 => le_trans h1 h2⟩
  have hsx := List.sorted_insertionSort (fun a b => key a ≤ key b) xs
  have hsy := List.sorted_insertionSort (fun a b => key a ≤ key b) ys
  have hpx : (xs.insertionSort (fun a b => key a ≤ key b)).Perm
      (ys.insertionSort (fun a b => key a ≤ key b)) :=
    (List.perm_insertionSort _ xs).trans (hperm.trans (List.perm_insertionSort _ ys).symm)
  have hdisty : (ys.insertionSort (fun a b => key a ≤ key b)).Pairwise
      (fun a b => key a ≠ key b) :=
    ((List.perm_insertionSort _ ys).pairwise_iff fun h => h.symm).mpr hdist
  have hdistx : (xs.insertionSort (fun a b => key a ≤ key b)).Pairwise
      (fun a b => key a ≠ key b) :=
    (hpx.pairwise_iff fun h => h.symm).mpr hdisty
  have strictx : (xs.insertionSort (fun a b => key a ≤ key b)).Pairwise
      (fun a b => key a < key b) :=
    (hsx.and hdistx).imp fun h => lt_of_le_of_ne h.1 h.2
  have stricty : (ys.insertionSort (fun a b => key a ≤ key b)).Pairwise
      (fun a b => key a < key b) :=
    (hsy.and hdisty).imp fun h => lt_of_le_of_ne h.1 h.2
  haveI : IsAntisymm α (fun a b => key a < key b) :=
    ⟨fun _ _ h1 h2 => absurd (lt_trans h1 h2) (lt_irrefl _)⟩
  exact List.eq_of_perm_of_sorted hpx strictx stricty

/-- C9 (amended): for slice lists sharing one orientation vector and with
pairwise-distinct slice position scalars, `combine_slices` with the default
spatial ordering is permutation-invariant: any reordering of the input gives
the identical merged volume and affine (identical full result). -/
theorem spatial_order_independence (l₁ l₂ : List Dataset) (hperm : l₂.Perm l₁)
    (io : List ℚ)
    (hio : ∀ d ∈ l₁, d.ImageOrientationPatient = io)
    (hdist : l₁.Pairwise (fun a b : Dataset =>
      _slice_position_key (_extract_cosines io).2.2 a
        ≠ _slice_position_key (_extract_cosines io).2.2 b))
    (rescale : Option Bool) (enf c : Bool) :
    combine_slices l₂ rescale enf false false c
      = combine_slices l₁ rescale enf false false c := by
  have hf : (l₂.filter fun ds => !_is_dicomdir ds).Perm
      (l₁.filter fun ds => !_is_dicomdir ds) := hperm.filter _
  have hlen := hf.length_eq
  by_cases h0 : (l₁.filter fun ds => !_is_dicomdir ds).length = 0
  · have h0' : (l₂.filter fun ds => !_is_dicomdir ds).length = 0 := by
      rw [hlen, h0]
    unfold combine_slices
    rw [if_pos h0, if_pos h0']
  · have h0' : ¬ (l₂.filter fun ds => !_is_dicomdir ds).length = 0 := by
      rw [hlen]
      exact h0
    have hho₁ : ((l₁.filter fun ds => !_is_dicomdir ds).headD default).ImageOrientationPatient
        = io := by
      cases hX : l₁.filter fun ds => !_is_dicomdir ds with
      | nil => rw [hX] at h0; simp at h0
      | cons a t =>
        apply hio
        apply List.mem_of_mem_filter (p := fun ds => !_is_dicomdir ds)
        rw [hX]
        simp
    have hho₂ : ((l₂.filter fun ds => !_is_dicomdir ds).headD default).ImageOrientationPatient
        = io := by
      cases hX : l₂.filter fun ds => !_is_dicomdir ds with
      | nil => rw [hX] at h0'; simp at h0'
      | cons a t =>
        apply hio
        apply hperm.subset
        apply List.mem_of_mem_filter (p := fun ds => !_is_dicomdir ds)
        rw [hX]
        simp
    have hdistf : (l₁.filter fun ds => !_is_dicomdir ds).Pairwise
        (fun a b : Dataset =>
          _slice_position_key (_extract_cosines io).2.2 a
            ≠ _slice_position_key (_extract_cosines io).2.2 b) :=
      List.Pairwise.sublist (List.filter_sublist _) hdist
    have hs : sort_by_slice_position (l₂.filter fun ds => !_is_dicomdir ds)
        = sort_by_slice_position (l₁.filter fun ds => !_is_dicomdir ds) := by
      unfold sort_by_slice_position
      rw [hho₁, hho₂]
      exact insertionSort_eq_of_perm_of_distinct
        (_slice_position_key (_extract_cosines io).2.2) _ _ hf hdistf
    unfold combine_slices
    rw [if_neg h0', if_neg h0]
    simp only [Bool.false_eq_true, if_false]
    rw [hs]

/-- C9 witness: two concrete slices at distinct heights, given in swapped
order, produce the identical result. -/
theorem spatial_order_independence_witness :
    combine_slices [pixSlice 1 1, pixSlice 0 0] none true false false false
      = combine_slices [pixSlice 0 0, pixSlice 1 1] none true false false false :=
  spatial_order_independence [pixSlice 0 0, pixSlice 1 1] [pixSlice 1 1, pixSlice 0 0]
    (List.Perm.swap _ _ _) [1, 0, 0, 0, 1, 0]
    (by
      intro d hd
      rcases List.mem_cons.mp hd with rfl | hd'
      · rfl
      · rcases List.mem_singleton.mp hd' with rfl
        rfl)
    (by
      constructor
      · intro b hb
        rcases List.mem_singleton.mp hb with rfl
        norm_num [_slice_position_key, _extract_cosines, vec3OfList,
          Vec3.dot, Vec3.cross, pixSlice]
      · exact List.pairwise_singleton _ _)
    none true false

/-! ## C6 -/

theorem Vec3.dot_add_smul (u v w : Vec3) (c : ℚ) :
    u.dot (Vec3.add v (Vec3.smul c w)) = u.dot v + c * u.dot w := by
  unfold Vec3.dot Vec3.add Vec3.smul
  ring

theorem sorted_replicate (m : ℕ) (d : ℚ) :
    List.Sorted (· ≤ ·) (List.replicate m d) := by
  induction m with
  | zero => simp
  | succ k ih =>
    rw [List.replicate_succ]
    refine List.Pairwise.cons ?_ ih
    intro b hb
    rw [List.eq_of_mem_replicate hb]

theorem np_median_replicate (m : ℕ) (d : ℚ) (hm : 1 ≤ m) :
    np_median (List.replicate m d) = d := by
  unfold np_median
  rw [List.Sorted.insertionSort_eq (sorted_replicate m d)]
  simp only [List.length_replicate]
  by_cases hp : m % 2 = 1
  · rw [if_pos hp]
    rw [List.getD_eq_getElem _ _ (by simp only [List.length_replicate]; omega),
      List.getElem_replicate]
  · rw [if_neg hp]
    rw [List.getD_eq_getElem _ _ (by simp only [List.length_replicate]; omega),
      List.getD_eq_getElem _ _ (by simp only [List.length_replicate]; omega),
      List.getElem_replicate, List.getElem_replicate]
    ring

/-- A list whose consecutive entries each grow by d is constant-difference:
its `np.diff` is the constant list d. -/
theorem np_diff_eq_replicate_of_arith (l : List ℚ) (d : ℚ)
    (h : ∀ i, i + 1 < l.length → l.getD (i + 1) 0 = l.getD i 0 + d) :
    np_diff l = List.replicate (l.length - 1) d := by
  induction l with
  | nil => rfl
  | cons a t ih =>
    cases t with
    | nil => rfl
    | cons b t' =>
      have h0 : b = a + d := by
        have := h 0 (by simp)
        simpa using this
      have hrec : ∀ i, i + 1 < (b :: t').length →
          (b :: t').getD (i + 1) 0 = (b :: t').getD i 0 + d := by
        intro i hi
        have := h (i + 1) (by simp at hi ⊢; omega)
        simpa using this
      show (b - a) :: np_diff (b :: t') = List.replicate ((a :: b :: t').length - 1) d
      rw [ih hrec]
      simp [h0, List.replicate_succ]

/-- C6 (amended): when the ordered slices lie exactly on the line through the
first position along the (unit) slice cosine with uniform step d — the
geometry the source documents as a requirement but never verifies beyond the
position projections — applying the affine to [0,0,k,1] recovers slice k's
recorded physical position exactly. -/
theorem affine_round_trip (sorted_datasets : List Dataset) (d : ℚ) (k : ℕ)
    (hk : k < sorted_datasets.length)
    (hunit : ((_extract_cosines
        (sorted_datasets.headD default).ImageOrientationPatient).2.2).dot
        ((_extract_cosines
          (sorted_datasets.headD default).ImageOrientationPatient).2.2) = 1)
    (hline : ∀ j, j < sorted_datasets.length →
      vec3OfList ((sorted_datasets.getD j default).ImagePositionPatient)
        = Vec3.add (vec3OfList ((sorted_datasets.headD default).ImagePositionPatient))
            (Vec3.smul ((j : ℚ) * d)
              ((_extract_cosines
                (sorted_datasets.headD default).ImageOrientationPatient).2.2))) :
    (_ijk_to_patient_xyz_transform_matrix sorted_datasets).mulVec ![0, 0, (k : ℚ), 1]
      = ![(vec3OfList ((sorted_datasets.getD k default).ImagePositionPatient)).x,
          (vec3OfList ((sorted_datasets.getD k default).ImagePositionPatient)).y,
          (vec3OfList ((sorted_datasets.getD k default).ImagePositionPatient)).z,
          1] := by
  have hposlen : (_slice_positions sorted_datasets).length = sorted_datasets.length := by
    simp [_slice_positions]
  have hposget : ∀ j, j < sorted_datasets.length →
      (_slice_positions sorted_datasets).getD j 0
        = ((_extract_cosines
              (sorted_datasets.headD default).ImageOrientationPatient).2.2).dot
            (vec3OfList ((sorted_datasets.headD default).ImagePositionPatient))
          + (j : ℚ) * d := by
    intro j hj
    rw [List.getD_eq_getElem _ _ (by rw [hposlen]; exact hj)]
    simp only [_slice_positions, List.getElem_map]
    unfold _slice_position_key
    rw [show sorted_datasets[j] = sorted_datasets.getD j default from
      (List.getD_eq_getElem _ _ hj).symm]
    rw [hline j hj, Vec3.dot_add_smul, hunit]
    ring
  have hdiff : np_diff (_slice_positions sorted_datasets)
      = List.replicate (sorted_datasets.length - 1) d := by
    have := np_diff_eq_replicate_of_arith (_slice_positions sorted_datasets) d ?_
    · rw [this, hposlen]
    · intro i hi
      rw [hposlen] at hi
      rw [hposget (i + 1) hi, hposget i (by omega)]
      push_cast
      ring
  have hsk : _slice_spacing sorted_datasets * (k : ℚ) = (k : ℚ) * d := by
    rcases Nat.lt_or_ge sorted_datasets.length 2 with hn | hn
    · have hk0 : k = 0 := by omega
      subst hk0
      push_cast
      ring
    · have hss : _slice_spacing sorted_datasets = d := by
        unfold _slice_spacing
        rw [if_pos (by omega : sorted_datasets.length > 1), hdiff]
        exact np_median_replicate _ _ (by omega)
      rw [hss]
      ring
  rw [transform_closed_form]
  funext i
  rw [hline k hk]
  set fd := sorted_datasets.headD default with hfd
  fin_cases i
  · simp [Matrix.mulVec, Matrix.dotProduct, Fin.sum_univ_four, Vec3.add, Vec3.smul]
    linear_combination (_extract_cosines fd.ImageOrientationPatient).2.2.x * hsk
  · simp [Matrix.mulVec, Matrix.dotProduct, Fin.sum_univ_four, Vec3.add, Vec3.smul]
    linear_combination (_extract_cosines fd.ImageOrientationPatient).2.2.y * hsk
  · simp [Matrix.mulVec, Matrix.dotProduct, Fin.sum_univ_four, Vec3.add, Vec3.smul]
    linear_combination (_extract_cosines fd.ImageOrientationPatient).2.2.z * hsk
  · simp [Matrix.mulVec, Matrix.dotProduct, Fin.sum_univ_four, Vec3.add, Vec3.smul]

/-- A slice whose position is displaced in-plane: same slice-position scalar
line as the stack direction suggests, but off the slice-cosine axis. -/
def obliqueSlice : Dataset :=
  { pixSlice 0 0 with ImagePositionPatient := [1, 0, 1] }

/-- C6 counterexample: the list [origin slice, slice at (1,0,1)] passes the
entire grid validation (only position *projections* are checked) and is
already in sorted order, yet applying the affine to [0,0,1,1] gives x = 0
while slice 1's recorded x-position is 1 — an error of one full unit, far
beyond floating-point tolerance. -/
theorem affine_round_trip_cex :
    _validate_slices_form_uniform_grid [pixSlice 0 0, obliqueSlice] true = Except.ok []
    ∧ sort_by_slice_position [pixSlice 0 0, obliqueSlice] = [pixSlice 0 0, obliqueSlice]
    ∧ ((_ijk_to_patient_xyz_transform_matrix [pixSlice 0 0, obliqueSlice]).mulVec
        ![0, 0, 1, 1]) 0 = 0
    ∧ (vec3OfList ((([pixSlice 0 0, obliqueSlice] : List Dataset).getD 1
        default).ImagePositionPatient)).x = 1 := by
  refine ⟨?_, ?_, ?_, ?_⟩
  · norm_num [_validate_slices_form_uniform_grid, _invariant_attribute_checks,
      _slice_attribute_equal, _validate_image_orientation, _extract_cosines,
      vec3OfList, Vec3.dot, Vec3.cross, _almost_zero, isclose, _almost_one_of_sq,
      _slice_ndarray_attribute_almost_equal_orientation, np_allclose_list,
      _check_for_missing_slices, _slice_positions, _slice_position_key,
      np_allclose_scalar, np_diff, List.insertionSort, List.orderedInsert,
      List.zipWith, pixSlice, obliqueSlice, max_def]
  · unfold sort_by_slice_position
    norm_num [List.insertionSort, List.orderedInsert, _slice_position_key,
      _extract_cosines, vec3OfList, Vec3.dot, Vec3.cross, pixSlice, obliqueSlice]
  · rw [transform_closed_form]
    norm_num [Matrix.mulVec, Matrix.dotProduct, Fin.sum_univ_four,
      _extract_cosines, vec3OfList, Vec3.dot, Vec3.cross, pixSlice, obliqueSlice]
  · norm_num [obliqueSlice, pixSlice, vec3OfList]

/-- C6 witness: two slices on the z-axis at heights 0 and 2; the affine sends
[0,0,1,1] exactly to the second slice's position (0,0,2). -/
theorem affine_round_trip_witness :
    (_ijk_to_patient_xyz_transform_matrix [pixSlice 0 0, pixSlice 2 0]).mulVec
        ![0, 0, ((1 : ℕ) : ℚ), 1]
      = ![0, 0, 2, 1] := by
  have h := affine_round_trip [pixSlice 0 0, pixSlice 2 0] 2 1 (by norm_num)
    (by
      norm_num [_extract_cosines, vec3OfList, Vec3.dot, Vec3.cross, pixSlice])
    (by
      intro j hj
      simp only [List.length_cons, List.length_nil] at hj
      interval_cases j <;>
        norm_num [pixSlice, vec3OfList, Vec3.add, Vec3.smul, _extract_cosines,
          Vec3.dot, Vec3.cross])
  rw [h]
  funext i
  fin_cases i <;> norm_num [pixSlice, vec3OfList]
